import Mathlib

/-!
Verification of `container_restarter.py` (SwagMuffin411/container-restarter).

The script is shallowly embedded: Python `None`-able strings become
`Option String`, Python truthiness of such values is `truthy`, datetimes are
split into an abstract day index plus hour/minute fields, and each network
call's outcome is an explicit parameter (`Except Unit _`) of the embedded
function.  Exceptions are modelled with `Except`.
-/

/-- Python truthiness of an optional string: `None` and `""` are falsy. -/
def truthy : Option String → Bool
  | none => false
  | some s => !s.isEmpty

/-- A wall-clock instant, split as the Python code uses it:
`now.date()` is an abstract day index, `now.time().hour` / `.minute`
are the clock fields compared in `_should_restart`. -/
structure DateTime where
  date : Nat
  hour : Nat
  minute : Nat
deriving DecidableEq

/-- Result of `datetime.strptime(s, "%H:%M").time()`: hour and minute. -/
structure HM where
  hour : Nat
  minute : Nat
deriving DecidableEq

/-- A 1-or-2 digit decimal field, as matched by the `%H` / `%M`
directives of `strptime` (regex `\d{1,2}`, ASCII digits in our model). -/
def parse2Digit : List Char → Option Nat
  | [c] => if c.isDigit then some (c.toNat - 48) else none
  | [c₁, c₂] =>
    if c₁.isDigit && c₂.isDigit then some ((c₁.toNat - 48) * 10 + (c₂.toNat - 48))
    else none
  | _ => none

/-- Split a character list at every `':'` (the literal separator of the
`"%H:%M"` format). -/
def splitColon : List Char → List (List Char)
  | [] => [[]]
  | c :: rest =>
    if c = ':' then [] :: splitColon rest
    else
      match splitColon rest with
      | [] => [[c]]
      | g :: gs => (c :: g) :: gs

/-- Model of `datetime.strptime(s, "%H:%M")`: the whole string must be
`<1-2 digit hour>':'<1-2 digit minute>` with hour ≤ 23 and minute ≤ 59;
anything else raises `ValueError` (here: `none`). -/
def parseHM (s : String) : Option HM :=
  match splitColon s.data with
  | [h, m] =>
    match parse2Digit h, parse2Digit m with
    | some hv, some mv =>
      if hv ≤ 23 && mv ≤ 59 then some ⟨hv, mv⟩ else none
    | _, _ => none
  | _ => none

/-- Digit run with optional single underscores between digits, as accepted
by Python `int`; accumulates the value. -/
def pyDigitsGo : List Char → Nat → Option Nat
  | [], acc => some acc
  | '_' :: c :: rest, acc =>
    if c.isDigit then pyDigitsGo rest (acc * 10 + (c.toNat - 48)) else none
  | '_' :: [], _ => none
  | c :: rest, acc =>
    if c.isDigit then pyDigitsGo rest (acc * 10 + (c.toNat - 48)) else none

/-- Nonempty digit run (underscores allowed between digits). -/
def pyDigits : List Char → Option Nat
  | [] => none
  | '_' :: _ => none
  | c :: rest => if c.isDigit then pyDigitsGo rest (c.toNat - 48) else none

/-- Python `int(s)` on a string (ASCII model): strip surrounding whitespace,
optional sign, then decimal digits; `ValueError` is `none`. -/
def pyInt (s : String) : Option Int :=
  let l := (s.data.dropWhile Char.isWhitespace).reverse.dropWhile Char.isWhitespace
  match l.reverse with
  | '+' :: rest => (pyDigits rest).map Int.ofNat
  | '-' :: rest => (pyDigits rest).map (fun n => -(n : Int))
  | l' => (pyDigits l').map Int.ofNat

/-- Python `url.rstrip('/')`: drop every trailing `'/'`. -/
def rstripSlash (s : String) : String :=
  ⟨(s.data.reverse.dropWhile (· = '/')).reverse⟩

/-! ## `PortainerAPI` (client state and operations) -/

/-- State of a `PortainerAPI` object.  Times (`jwt_expiry`, the `now`
arguments below) are abstract minutes since some epoch. -/
structure APIState where
  url : String
  api_key : Option String
  username : Option String
  password : Option String
  jwt_token : Option String
  jwt_expiry : Option Nat
deriving DecidableEq

/-- Constructor `PortainerAPI.__init__`: normalises the URL with `rstrip('/')` and
starts with no JWT state. -/
def PortainerAPI.init (url : String) (api_key username password : Option String) :
    APIState :=
  { url := rstripSlash url
    api_key := api_key
    username := username
    password := password
    jwt_token := none
    jwt_expiry := none }

/-- The URL posted to by `_authenticate`. -/
def auth_url (s : APIState) : String := s.url ++ "/api/auth"

/-- The URL fetched by `get_container_id`. -/
def container_list_url (s : APIState) (endpoint_id : String) : String :=
  s.url ++ "/api/endpoints/" ++ endpoint_id ++ "/docker/containers/json?all=1"

/-- The URL posted to by `restart_container`. -/
def container_restart_url (s : APIState) (endpoint_id container_id : String) : String :=
  s.url ++ "/api/endpoints/" ++ endpoint_id ++ "/docker/containers/" ++ container_id ++ "/restart"

/-- Headers returned by `_get_headers`. -/
inductive Headers where
  | xApiKey (key : String)
  | bearer (token : String)
deriving DecidableEq

/-- Model of `PortainerAPI._authenticate`.  `net` is the outcome of the HTTP POST to
the auth endpoint: `.ok jwt` delivers the token from the response body, and
`.error ()` stands for any network/HTTP/parse failure (all re-raised).
On success the expiry is set 7 h 30 min (450 min) after `now`. -/
def authenticate (s : APIState) (now : Nat) (net : Except Unit String) :
    Except Unit APIState :=
  if !truthy s.username || !truthy s.password then .error ()
  else
    match net with
    | .error _ => .error ()
    | .ok jwt =>
      .ok { s with jwt_token := some jwt, jwt_expiry := some (now + 450) }

/-- Model of `PortainerAPI._get_headers`.  Returns the headers and the updated state
(or the propagated exception), paired with a flag recording whether
`_authenticate` was invoked.  A truthy `api_key` short-circuits everything;
otherwise the JWT is (re)acquired when the cached token is falsy or
`now ≥ jwt_expiry` (a set token with `jwt_expiry = None` would make that
comparison raise `TypeError`, modelled as `.error`). -/
def get_headers (s : APIState) (now : Nat) (net : Except Unit String) :
    Except Unit (Headers × APIState) × Bool :=
  if truthy s.api_key then (.ok (.xApiKey (s.api_key.getD ""), s), false)
  else
    let needAuth : Except Unit Bool :=
      if !truthy s.jwt_token then .ok true
      else
        match s.jwt_expiry with
        | none => .error ()
        | some e => .ok (decide (e ≤ now))
    match needAuth with
    | .error _ => (.error (), false)
    | .ok true =>
      match authenticate s now net with
      | .error _ => (.error (), true)
      | .ok s' => (.ok (.bearer (s'.jwt_token.getD ""), s'), true)
    | .ok false => (.ok (.bearer (s.jwt_token.getD ""), s), false)

/-- One element of the JSON array returned by the container-list endpoint:
its `Id` and its (possibly absent) `Names` list. -/
structure Container where
  Id : String
  Names : Option (List String)

/-- The per-container match tried by `get_container_id`:
`'/'+name` or `name` in `Names` (absent `Names` defaults to `[]`),
or `Id.startswith(name)`. -/
def containerMatches (container_name : String) (c : Container) : Bool :=
  ((c.Names.getD []).contains ("/" ++ container_name)
      || (c.Names.getD []).contains container_name)
    || c.Id.startsWith container_name

/-- The scan loop of `PortainerAPI.get_container_id` over the decoded
container list: first the `Names` check, then the ID-prefix check, per
container; `ValueError` (not found) if the loop falls through. -/
def get_container_id (containers : List Container) (container_name : String) :
    Except String String :=
  match containers with
  | [] => .error ("Container '" ++ container_name ++ "' not found")
  | c :: rest =>
    let names := c.Names.getD []
    if names.contains ("/" ++ container_name) || names.contains container_name then
      .ok c.Id
    else if c.Id.startsWith container_name then
      .ok c.Id
    else
      get_container_id rest container_name

/-! ## `ContainerRestarter` (configuration and scheduler loop) -/

/-- The environment variables read by `ContainerRestarter.__init__`
(`os.getenv` yields `None` for an unset variable). -/
structure Env where
  PORTAINER_URL : Option String
  PORTAINER_API_KEY : Option String
  PORTAINER_USERNAME : Option String
  PORTAINER_PASSWORD : Option String
  ENDPOINT_ID : Option String
  CONTAINER_NAME : Option String
  RESTART_TIME : Option String
  CHECK_INTERVAL : Option String

/-- The configuration fields a constructed `ContainerRestarter` holds. -/
structure Config where
  portainer_url : Option String
  api_key : Option String
  username : Option String
  password : Option String
  endpoint_id : String
  container_name : Option String
  restart_time : String
  check_interval : Int

/-- Model of `ContainerRestarter._validate_config`: the four startup checks, in
source order; each failure raises `ValueError` (here `.error`). -/
def validate_config (c : Config) : Except String Unit :=
  if !truthy c.portainer_url then
    .error "PORTAINER_URL environment variable is required"
  else if !truthy c.api_key && !(truthy c.username && truthy c.password) then
    .error "Either PORTAINER_API_KEY or both PORTAINER_USERNAME and PORTAINER_PASSWORD must be provided"
  else if !truthy c.container_name then
    .error "CONTAINER_NAME environment variable is required"
  else
    match parseHM c.restart_time with
    | none => .error ("RESTART_TIME must be in HH:MM format (24-hour), got: " ++ c.restart_time)
    | some _ => .ok ()

/-- The attribute assignments of `ContainerRestarter.__init__` (defaults
`'1'`, `'03:00'`, `'60'`), given the already-converted check interval. -/
def mkConfig (env : Env) (n : Int) : Config :=
  { portainer_url := env.PORTAINER_URL
    api_key := env.PORTAINER_API_KEY
    username := env.PORTAINER_USERNAME
    password := env.PORTAINER_PASSWORD
    endpoint_id := env.ENDPOINT_ID.getD "1"
    container_name := env.CONTAINER_NAME
    restart_time := env.RESTART_TIME.getD "03:00"
    check_interval := n }

/-- Constructor `ContainerRestarter.__init__`: read the environment, convert
`CHECK_INTERVAL` with `int()` (which may itself raise before validation
runs), then validate.  No network call is made: the `PortainerAPI`
constructor only stores fields. -/
def mkRestarter (env : Env) : Except String Config :=
  match pyInt (env.CHECK_INTERVAL.getD "60") with
  | none => .error ("invalid literal for int(): " ++ env.CHECK_INTERVAL.getD "60")
  | some n =>
    match validate_config (mkConfig env n) with
    | .error e => .error e
    | .ok _ => .ok (mkConfig env n)

/-- The mutable scheduler fields that `run` reads and writes, together with
the (immutable) restart-time string the decision re-parses on every tick. -/
structure SchedState where
  restart_time : String
  container_id : Option String
  last_restart_date : Option Nat
deriving DecidableEq

/-- Model of `ContainerRestarter._should_restart`: re-parse `restart_time`
(a `ValueError` there, impossible after validation, is `none`), then
`hour == hour and minute == minute and last_restart_date != today`. -/
def should_restart (restart_time : String) (last_restart_date : Option Nat)
    (now : DateTime) : Option Bool :=
  match parseHM restart_time with
  | none => none
  | some target_time =>
    some ((decide (now.hour = target_time.hour) && decide (now.minute = target_time.minute))
      && decide (last_restart_date ≠ some now.date))

/-- The external face of one iteration of the `while True` loop: the clock
reading, the outcome the container-lookup call would produce if made this
tick, and whether the restart call would succeed if made this tick.
The loop body is treated as instantaneous (the code reads the clock once in
`_should_restart` and again when recording the date). -/
structure TickInput where
  now : DateTime
  lookup : Except Unit String
  restartOk : Bool

/-- The `try` block of one loop iteration: resolve `container_id` when it
is falsy, then fire the restart when `_should_restart()` holds.  Returns
the state as the block leaves it (or the escaping exception) paired with a
flag recording whether `restart_container` was invoked. -/
def tickBody (s : SchedState) (t : TickInput) : Except Unit SchedState × Bool :=
  let resolved : Except Unit SchedState :=
    if !truthy s.container_id then
      match t.lookup with
      | .ok i => .ok { s with container_id := some i }
      | .error _ => .error ()
    else .ok s
  match resolved with
  | .error _ => (.error (), false)
  | .ok s₁ =>
    match should_restart s₁.restart_time s₁.last_restart_date t.now with
    | none => (.error (), false)
    | some true =>
      if t.restartOk then (.ok { s₁ with last_restart_date := some t.now.date }, true)
      else (.error (), true)
    | some false => (.ok s₁, false)

/-- One full loop iteration including the `except` clause: any exception is
caught, logged and answered by `self.container_id = None`.  Returns the
next state, the restart-invoked flag, and whether an error was caught. -/
def tick (s : SchedState) (t : TickInput) : SchedState × Bool × Bool :=
  match tickBody s t with
  | (.ok s', inv) => (s', inv, false)
  | (.error _, inv) => ({ s with container_id := none }, inv, true)

/-- Run the loop over a finite prefix of ticks, counting how many times the
restart call was invoked. -/
def runTicks (s : SchedState) (ts : List TickInput) : SchedState × Nat :=
  match ts with
  | [] => (s, 0)
  | t :: rest =>
    let r := tick s t
    let r' := runTicks r.1 rest
    (r'.1, (if r.2.1 then 1 else 0) + r'.2)

/-- Observable fate of the process. -/
inductive ProcResult where
  | exit (code : Nat)
  | runsForever
deriving DecidableEq

/-- Model of `main()`: construction failure (`ValueError`) is caught and answered
with `sys.exit(1)`; `KeyboardInterrupt` (the only exception `run`'s
all-catching loop lets escape, possible at any point) gives `sys.exit(0)`;
otherwise `run` loops forever. -/
def mainResult (env : Env) (interrupted : Bool) : ProcResult :=
  if interrupted then .exit 0
  else
    match mkRestarter env with
    | .error _ => .exit 1
    | .ok _ => .runsForever

/-! ## Helper lemmas -/

theorem truthy_some (o : Option String) (h : truthy o = true) : ∃ s, o = some s := by
  cases o with
  | none => simp [truthy] at h
  | some s => exact ⟨s, rfl⟩

theorem matches_of_names (c : Container) (n : String)
    (h : ((c.Names.getD []).contains ("/" ++ n)
        || (c.Names.getD []).contains n) = true) :
    containerMatches n c = true := by
  simp only [containerMatches, h, Bool.true_or]

theorem matches_of_id (c : Container) (n : String)
    (h : c.Id.startsWith n = true) : containerMatches n c = true := by
  simp only [containerMatches, h, Bool.or_true]

theorem matches_false_parts (c : Container) (n : String)
    (h : containerMatches n c = false) :
    ((c.Names.getD []).contains ("/" ++ n)
        || (c.Names.getD []).contains n) = false ∧ c.Id.startsWith n = false := by
  simp only [containerMatches, Bool.or_eq_false_iff] at h
  exact ⟨Bool.or_eq_false_iff.mpr h.1, h.2⟩

theorem get_container_id_cons (c : Container) (rest : List Container) (n : String) :
    get_container_id (c :: rest) n =
      if ((c.Names.getD []).contains ("/" ++ n) || (c.Names.getD []).contains n) = true
      then .ok c.Id
      else if c.Id.startsWith n = true then .ok c.Id
      else get_container_id rest n := rfl

theorem get_container_id_isOk (container_name : String) :
    ∀ containers : List Container,
      (get_container_id containers container_name).isOk = true ↔
        ∃ c ∈ containers, containerMatches container_name c = true := by
  intro containers
  induction containers with
  | nil => simp [get_container_id, Except.isOk, Except.toBool]
  | cons c rest ih =>
    rw [get_container_id_cons]
    split_ifs with h₁ h₂
    · simp only [Except.isOk, Except.toBool, true_iff]
      exact ⟨c, List.mem_cons_self _ _, matches_of_names c _ h₁⟩
    · simp only [Except.isOk, Except.toBool, true_iff]
      exact ⟨c, List.mem_cons_self _ _, matches_of_id c _ h₂⟩
    · rw [ih]
      constructor
      · rintro ⟨c', hc', hm⟩
        exact ⟨c', List.mem_cons_of_mem _ hc', hm⟩
      · rintro ⟨c', hc', hm⟩
        rcases List.mem_cons.mp hc' with rfl | hmem
        · have h₁' : ((c'.Names.getD []).contains ("/" ++ container_name)
              || (c'.Names.getD []).contains container_name) = false := by
            revert h₁
            cases ((c'.Names.getD []).contains ("/" ++ container_name)
              || (c'.Names.getD []).contains container_name) <;> simp
          have h₂' : c'.Id.startsWith container_name = false := by
            revert h₂
            cases c'.Id.startsWith container_name <;> simp
          have hfm : containerMatches container_name c' = false := by
            simp only [containerMatches, h₁', h₂', Bool.false_or]
          simp [hfm] at hm
        · exact ⟨c', hmem, hm⟩

theorem get_container_id_ok_mem (container_name : String) :
    ∀ (containers : List Container) (id : String),
      get_container_id containers container_name = .ok id →
        ∃ c ∈ containers, containerMatches container_name c = true ∧ c.Id = id := by
  intro containers
  induction containers with
  | nil => intro id h; simp [get_container_id] at h
  | cons c rest ih =>
    intro id h
    rw [get_container_id_cons] at h
    split_ifs at h with h₁ h₂
    · exact ⟨c, List.mem_cons_self _ _, matches_of_names c _ h₁, Except.ok.inj h⟩
    · exact ⟨c, List.mem_cons_self _ _, matches_of_id c _ h₂, Except.ok.inj h⟩
    · obtain ⟨c', hc', hm, hid⟩ := ih id h
      exact ⟨c', List.mem_cons_of_mem _ hc', hm, hid⟩

theorem get_container_id_not_found (container_name : String) :
    ∀ containers : List Container,
      (∀ c ∈ containers, containerMatches container_name c = false) →
        get_container_id containers container_name =
          .error ("Container '" ++ container_name ++ "' not found") := by
  intro containers
  induction containers with
  | nil => intro _; rfl
  | cons c rest ih =>
    intro h
    obtain ⟨hn, hi⟩ := matches_false_parts c _ (h c (List.mem_cons_self _ _))
    rw [get_container_id_cons, if_neg (by rw [hn]; exact Bool.false_ne_true),
      if_neg (by rw [hi]; exact Bool.false_ne_true)]
    exact ih fun c' hc' => h c' (List.mem_cons_of_mem _ hc')

/-! ## The claims -/

/-- C2: `_should_restart` returns `True` exactly when the current hour and
minute equal the target's and the recorded last-restart date differs from
the current date (given that the configured restart-time string parses,
which startup validation guarantees). -/
theorem should_restart_iff (restart_time : String) (tt : HM)
    (hp : parseHM restart_time = some tt) (last : Option Nat) (now : DateTime) :
    should_restart restart_time last now = some true ↔
      (now.hour = tt.hour ∧ now.minute = tt.minute ∧ last ≠ some now.date) := by
  simp [should_restart, hp, Bool.and_eq_true, decide_eq_true_eq, and_assoc]

/-- Witness for C2 at a concrete instant. -/
theorem should_restart_iff_witness :
    should_restart "03:00" none ⟨5, 3, 0⟩ = some true :=
  (should_restart_iff "03:00" ⟨3, 0⟩ (by decide) none ⟨5, 3, 0⟩).mpr
    ⟨rfl, rfl, by decide⟩

/-- C3: `get_container_id` succeeds exactly when some listed container
matches the configured name (leading-slash name, bare name, or ID prefix);
a success returns the `Id` of a matching container, and when nothing
matches it raises the not-found `ValueError`. -/
theorem get_container_id_spec (containers : List Container) (container_name : String) :
    ((get_container_id containers container_name).isOk = true ↔
      ∃ c ∈ containers, containerMatches container_name c = true) ∧
    (∀ id, get_container_id containers container_name = .ok id →
      ∃ c ∈ containers, containerMatches container_name c = true ∧ c.Id = id) ∧
    ((∀ c ∈ containers, containerMatches container_name c = false) →
      get_container_id containers container_name =
        .error ("Container '" ++ container_name ++ "' not found")) :=
  ⟨get_container_id_isOk container_name containers,
   get_container_id_ok_mem container_name containers,
   get_container_id_not_found container_name containers⟩

/-- Witness for C3: one container matched through its `Names`, resolution
returns its ID. -/
theorem get_container_id_spec_witness :
    ∃ c ∈ [Container.mk "abcdef" (some ["/web"])],
      containerMatches "web" c = true ∧ c.Id = "abcdef" :=
  (get_container_id_spec [Container.mk "abcdef" (some ["/web"])] "web").2.1
    "abcdef" rfl

theorem validate_config_error (c : Config)
    (h : truthy c.portainer_url = false
       ∨ (truthy c.api_key = false
           ∧ (truthy c.username && truthy c.password) = false)
       ∨ truthy c.container_name = false
       ∨ parseHM c.restart_time = none) :
    ∃ e, validate_config c = .error e := by
  unfold validate_config
  split_ifs with g₁ g₂ g₃
  · exact ⟨_, rfl⟩
  · exact ⟨_, rfl⟩
  · exact ⟨_, rfl⟩
  · cases hp : parseHM c.restart_time with
    | none => exact ⟨_, rfl⟩
    | some tt =>
      exfalso
      rcases h with h | ⟨ha, hb⟩ | h | h
      · exact g₁ (by rw [h]; rfl)
      · exact g₂ (by rw [ha, hb]; rfl)
      · exact g₃ (by rw [h]; rfl)
      · rw [h] at hp; cases hp

theorem validate_config_ok (c : Config)
    (h₁ : truthy c.portainer_url = true)
    (h₂ : truthy c.api_key = true
        ∨ (truthy c.username = true ∧ truthy c.password = true))
    (h₃ : truthy c.container_name = true)
    (tt : HM) (hp : parseHM c.restart_time = some tt) :
    validate_config c = .ok () := by
  unfold validate_config
  split_ifs with g₁ g₂ g₃
  · rw [h₁] at g₁; simp at g₁
  · rcases h₂ with hk | ⟨hu, hq⟩
    · rw [hk] at g₂; simp at g₂
    · rw [hu, hq] at g₂; simp at g₂
  · rw [h₃] at g₃; simp at g₃
  · rw [hp]

/-- C7: a missing URL, missing credentials (no API key and not both
username and password), missing container name, or an unparsable
`RESTART_TIME` each make `ContainerRestarter` construction raise before
any network call (the embedded constructor makes none). -/
theorem invalid_config_rejected (env : Env)
    (h : truthy env.PORTAINER_URL = false
       ∨ (truthy env.PORTAINER_API_KEY = false
           ∧ (truthy env.PORTAINER_USERNAME && truthy env.PORTAINER_PASSWORD) = false)
       ∨ truthy env.CONTAINER_NAME = false
       ∨ parseHM (env.RESTART_TIME.getD "03:00") = none) :
    ∃ e, mkRestarter env = .error e := by
  unfold mkRestarter
  cases hint : pyInt (env.CHECK_INTERVAL.getD "60") with
  | none => exact ⟨_, rfl⟩
  | some n =>
    obtain ⟨e, he⟩ := validate_config_error (mkConfig env n) h
    refine ⟨e, ?_⟩
    show (match validate_config (mkConfig env n) with
      | .error e => Except.error e
      | .ok _ => Except.ok (mkConfig env n)) = Except.error e
    rw [he]

/-- Witness for C7: no `PORTAINER_URL` set. -/
theorem invalid_config_rejected_witness :
    ∃ e, mkRestarter ⟨none, some "k", none, none, none, some "web", none, none⟩
      = .error e :=
  invalid_config_rejected ⟨none, some "k", none, none, none, some "web", none, none⟩
    (Or.inl rfl)

/-- C9: with `ENDPOINT_ID`, `RESTART_TIME` and `CHECK_INTERVAL` unset (and
the required variables valid), construction succeeds with the defaults
`'1'`, `'03:00'` and `60` seconds. -/
theorem defaults_applied (env : Env)
    (h₁ : env.ENDPOINT_ID = none) (h₂ : env.RESTART_TIME = none)
    (h₃ : env.CHECK_INTERVAL = none)
    (h₄ : truthy env.PORTAINER_URL = true)
    (h₅ : truthy env.PORTAINER_API_KEY = true
        ∨ (truthy env.PORTAINER_USERNAME = true ∧ truthy env.PORTAINER_PASSWORD = true))
    (h₆ : truthy env.CONTAINER_NAME = true) :
    mkRestarter env = .ok (mkConfig env 60) ∧
      (mkConfig env 60).endpoint_id = "1" ∧
      (mkConfig env 60).restart_time = "03:00" ∧
      (mkConfig env 60).check_interval = 60 := by
  have hpy : pyInt (env.CHECK_INTERVAL.getD "60") = some 60 := by
    rw [h₃]; decide
  have hrt : (mkConfig env 60).restart_time = "03:00" := by
    show env.RESTART_TIME.getD "03:00" = "03:00"
    rw [h₂]
    rfl
  have hv : validate_config (mkConfig env 60) = .ok () :=
    validate_config_ok (mkConfig env 60) h₄ h₅ h₆ ⟨3, 0⟩ (by rw [hrt]; decide)
  refine ⟨?_, ?_, hrt, rfl⟩
  · unfold mkRestarter
    rw [hpy]
    show (match validate_config (mkConfig env 60) with
      | .error e => Except.error e
      | .ok _ => Except.ok (mkConfig env 60)) = Except.ok (mkConfig env 60)
    rw [hv]
  · show env.ENDPOINT_ID.getD "1" = "1"
    rw [h₁]
    rfl

/-- Witness for C9 at a concrete environment. -/
theorem defaults_applied_witness :
    mkRestarter ⟨some "http://p", some "k", none, none, none, some "web", none, none⟩
      = .ok (mkConfig ⟨some "http://p", some "k", none, none, none, some "web", none, none⟩ 60) :=
  (defaults_applied ⟨some "http://p", some "k", none, none, none, some "web", none, none⟩
    rfl rfl rfl rfl (Or.inl rfl) rfl).1

theorem dropWhile_replicate_append (p : Char → Bool) (a : Char) (hp : p a = true) :
    ∀ (n : Nat) (l : List Char), (List.replicate n a ++ l).dropWhile p = l.dropWhile p := by
  intro n
  induction n with
  | zero => intro l; rfl
  | succ k ih => intro l; simp [List.replicate_succ, List.dropWhile, hp, ih]

theorem rstripSlash_append_slashes (u : String) (n : Nat) :
    rstripSlash (u ++ ⟨List.replicate n '/'⟩) = rstripSlash u := by
  unfold rstripSlash
  congr 1
  rw [String.data_append, List.reverse_append, List.reverse_replicate,
    dropWhile_replicate_append _ '/' (by decide)]

/-- C10: the constructor's `rstrip('/')` makes clients built from a base
URL and from the same URL with trailing slashes appended issue identical
auth, container-list and restart URLs. -/
theorem url_normalization (u : String) (n : Nat)
    (api_key username password : Option String) (endpoint_id container_id : String) :
    auth_url (PortainerAPI.init (u ++ ⟨List.replicate n '/'⟩) api_key username password)
      = auth_url (PortainerAPI.init u api_key username password) ∧
    container_list_url
        (PortainerAPI.init (u ++ ⟨List.replicate n '/'⟩) api_key username password)
        endpoint_id
      = container_list_url (PortainerAPI.init u api_key username password) endpoint_id ∧
    container_restart_url
        (PortainerAPI.init (u ++ ⟨List.replicate n '/'⟩) api_key username password)
        endpoint_id container_id
      = container_restart_url (PortainerAPI.init u api_key username password)
        endpoint_id container_id := by
  have h := rstripSlash_append_slashes u n
  exact ⟨by simp [auth_url, PortainerAPI.init, h],
    by simp [container_list_url, PortainerAPI.init, h],
    by simp [container_restart_url, PortainerAPI.init, h]⟩

/-- C5: a truthy API key short-circuits `_get_headers` (no authentication,
state untouched); without one, `_authenticate` runs exactly when the cached
token is falsy or `now` has reached its expiry, every successful result is
a bearer header, and an unexpired cached token is returned as-is with no
re-authentication. -/
theorem get_headers_spec (s : APIState) (now : Nat) (net : Except Unit String) :
    (truthy s.api_key = true →
      get_headers s now net = (.ok (.xApiKey (s.api_key.getD ""), s), false)) ∧
    (truthy s.api_key = false →
      ((truthy s.jwt_token = true → s.jwt_expiry ≠ none) →
        ((get_headers s now net).2 = true ↔
          (truthy s.jwt_token = false ∨ ∃ e, s.jwt_expiry = some e ∧ e ≤ now))) ∧
      (∀ hd s', (get_headers s now net).1 = .ok (hd, s') →
        ∃ tok, hd = .bearer tok) ∧
      (∀ tok e, s.jwt_token = some tok → tok.isEmpty = false →
        s.jwt_expiry = some e → now < e →
        get_headers s now net = (.ok (.bearer tok, s), false))) := by
  refine ⟨fun h => by simp [get_headers, h], fun h => ⟨fun hinv => ?_, ?_, ?_⟩⟩
  · cases hjt : truthy s.jwt_token with
    | false =>
      cases hauth : authenticate s now net with
      | error e => simp [get_headers, h, hjt, hauth]
      | ok s' => simp [get_headers, h, hjt, hauth]
    | true =>
      obtain ⟨e, hexp⟩ : ∃ e, s.jwt_expiry = some e := by
        cases hse : s.jwt_expiry with
        | none => exact absurd hse (hinv hjt)
        | some e => exact ⟨e, rfl⟩
      by_cases hle : e ≤ now
      · cases hauth : authenticate s now net with
        | error x => simp [get_headers, h, hjt, hexp, hle, hauth]
        | ok s' => simp [get_headers, h, hjt, hexp, hle, hauth]
      · simp [get_headers, h, hjt, hexp, hle]
  · intro hd s' hok
    by_cases hjt : truthy s.jwt_token = true
    · cases hse : s.jwt_expiry with
      | none => simp [get_headers, h, hjt, hse] at hok
      | some e =>
        by_cases hle : e ≤ now
        · cases hauth : authenticate s now net with
          | error x => simp [get_headers, h, hjt, hse, hle, hauth] at hok
          | ok s'' =>
            simp [get_headers, h, hjt, hse, hle, hauth] at hok
            exact ⟨_, hok.1.symm⟩
        · simp [get_headers, h, hjt, hse, hle] at hok
          exact ⟨_, hok.1.symm⟩
    · have hjt' : truthy s.jwt_token = false := by
        cases hv : truthy s.jwt_token
        · rfl
        · exact absurd hv hjt
      cases hauth : authenticate s now net with
      | error x => simp [get_headers, h, hjt', hauth] at hok
      | ok s'' =>
        simp [get_headers, h, hjt', hauth] at hok
        exact ⟨_, hok.1.symm⟩
  · intro tok e htok hne hexp hlt
    have hle : ¬ e ≤ now := Nat.not_le.mpr hlt
    simp [get_headers, h, htok, truthy, hne, hexp, hle]
    exact h

/-- Witness for C5: an unexpired cached token is reused without
re-authentication. -/
theorem get_headers_spec_witness :
    get_headers ⟨"u", none, some "a", some "b", some "J", some 450⟩ 449 (.error ())
      = (.ok (.bearer "J", ⟨"u", none, some "a", some "b", some "J", some 450⟩), false) :=
  ((get_headers_spec ⟨"u", none, some "a", some "b", some "J", some 450⟩ 449
      (.error ())).2 rfl).2.2 "J" 450 rfl rfl rfl (by decide)

theorem tickBody_of_truthy (s : SchedState) (t : TickInput)
    (h : truthy s.container_id = true) :
    tickBody s t =
      match should_restart s.restart_time s.last_restart_date t.now with
      | none => (.error (), false)
      | some true =>
        if t.restartOk then (.ok { s with last_restart_date := some t.now.date }, true)
        else (.error (), true)
      | some false => (.ok s, false) := by
  simp [tickBody, h]

theorem tickBody_of_lookup_ok (s : SchedState) (t : TickInput) (i : String)
    (h : truthy s.container_id = false) (hl : t.lookup = .ok i) :
    tickBody s t =
      match should_restart s.restart_time s.last_restart_date t.now with
      | none => (.error (), false)
      | some true =>
        if t.restartOk then
          (.ok { s with container_id := some i, last_restart_date := some t.now.date },
            true)
        else (.error (), true)
      | some false => (.ok { s with container_id := some i }, false) := by
  simp [tickBody, h, hl]

theorem tickBody_of_lookup_error (s : SchedState) (t : TickInput) (e : Unit)
    (h : truthy s.container_id = false) (hl : t.lookup = .error e) :
    tickBody s t = (.error (), false) := by
  simp [tickBody, h, hl]

theorem tick_of_body_ok (s : SchedState) (t : TickInput) (s' : SchedState) (inv : Bool)
    (h : tickBody s t = (.ok s', inv)) : tick s t = (s', inv, false) := by
  simp [tick, h]

theorem tick_of_body_error (s : SchedState) (t : TickInput) (inv : Bool)
    (h : tickBody s t = (.error (), inv)) :
    tick s t = ({ s with container_id := none }, inv, true) := by
  simp [tick, h]

theorem should_restart_same_date (rt : String) (d : Nat) (now : DateTime)
    (hd : now.date = d) :
    should_restart rt (some d) now = none ∨ should_restart rt (some d) now = some false := by
  unfold should_restart
  cases parseHM rt with
  | none => exact Or.inl rfl
  | some tt => exact Or.inr (by simp [hd])

theorem tick_no_fire (s : SchedState) (t : TickInput) (d : Nat)
    (hlast : s.last_restart_date = some d) (hdate : t.now.date = d) :
    (tick s t).2.1 = false ∧ (tick s t).1.last_restart_date = some d := by
  have hsr := should_restart_same_date s.restart_time d t.now hdate
  by_cases hcid : truthy s.container_id = true
  · have hb := tickBody_of_truthy s t hcid
    rw [hlast] at hb
    rcases hsr with hx | hx
    · rw [hx] at hb
      simp at hb
      simp [tick_of_body_error s t false hb, hlast]
    · rw [hx] at hb
      simp at hb
      simp [tick_of_body_ok s t s false hb, hlast]
  · have hcid' : truthy s.container_id = false := by
      cases hv : truthy s.container_id
      · rfl
      · exact absurd hv hcid
    cases hl : t.lookup with
    | error e =>
      have hb := tickBody_of_lookup_error s t e hcid' hl
      simp [tick_of_body_error s t false hb, hlast]
    | ok i =>
      have hb := tickBody_of_lookup_ok s t i hcid' hl
      rw [hlast] at hb
      rcases hsr with hx | hx
      · rw [hx] at hb
        simp at hb
        simp [tick_of_body_error s t false hb, hlast]
      · rw [hx] at hb
        simp at hb
        simp [tick_of_body_ok s t _ false hb, hlast]

theorem runTicks_no_fire (d : Nat) :
    ∀ (ts : List TickInput) (s : SchedState),
      s.last_restart_date = some d → (∀ t' ∈ ts, t'.now.date = d) →
      (runTicks s ts).2 = 0 := by
  intro ts
  induction ts with
  | nil => intro s _ _; rfl
  | cons t rest ih =>
    intro s hlast hall
    obtain ⟨hinv, hlast'⟩ := tick_no_fire s t d hlast (hall t (List.mem_cons_self _ _))
    simp only [runTicks]
    rw [hinv, ih (tick s t).1 hlast' (fun t' ht' => hall t' (List.mem_cons_of_mem _ ht'))]
    rfl

theorem bool_false_of_not_true (b : Bool) (h : ¬ b = true) : b = false := by
  cases hv : b
  · rfl
  · exact absurd hv h

theorem tickBody_fires (s : SchedState) (t : TickInput)
    (hcond : should_restart s.restart_time s.last_restart_date t.now = some true)
    (hres : truthy s.container_id = true ∨ ∃ i, t.lookup = .ok i) :
    (t.restartOk = true →
      ∃ s', tickBody s t = (.ok s', true) ∧
        s'.restart_time = s.restart_time ∧
        s'.last_restart_date = some t.now.date ∧
        (∃ i, s'.container_id = some i)) ∧
    (t.restartOk = false → tickBody s t = (.error (), true)) := by
  by_cases hcid : truthy s.container_id = true
  · obtain ⟨i, hi⟩ := truthy_some _ hcid
    have hb := tickBody_of_truthy s t hcid
    rw [hcond] at hb
    constructor
    · intro hro
      rw [hro] at hb
      exact ⟨_, hb, rfl, rfl, ⟨i, hi⟩⟩
    · intro hro
      rw [hro] at hb
      exact hb
  · have hcid' : truthy s.container_id = false := bool_false_of_not_true _ hcid
    obtain ⟨i, hl⟩ : ∃ i, t.lookup = .ok i := by
      rcases hres with hx | hx
      · exact absurd hx hcid
      · exact hx
    have hb := tickBody_of_lookup_ok s t i hcid' hl
    rw [hcond] at hb
    constructor
    · intro hro
      rw [hro] at hb
      exact ⟨_, hb, rfl, rfl, ⟨i, rfl⟩⟩
    · intro hro
      rw [hro] at hb
      exact hb

/-- C1: on a tick whose time-of-day matches the target with no restart yet
recorded for that date (the identifier resolvable and the restart call
succeeding), the restart is invoked and the tick's date is recorded; over
that tick plus any further ticks of the same day — whatever their lookup
and restart outcomes, including more ticks inside the trigger minute — the
restart call is invoked exactly once. -/
theorem restart_fires_once_per_day (s : SchedState) (t : TickInput)
    (rest : List TickInput) (tt : HM)
    (hp : parseHM s.restart_time = some tt)
    (hhour : t.now.hour = tt.hour) (hmin : t.now.minute = tt.minute)
    (hnew : s.last_restart_date ≠ some t.now.date)
    (hres : truthy s.container_id = true ∨ ∃ i, t.lookup = .ok i)
    (hok : t.restartOk = true)
    (hsame : ∀ t' ∈ rest, t'.now.date = t.now.date) :
    (tick s t).2.1 = true ∧
    (tick s t).1.last_restart_date = some t.now.date ∧
    (runTicks s (t :: rest)).2 = 1 := by
  have hsr : should_restart s.restart_time s.last_restart_date t.now = some true := by
    simp [should_restart, hp, hhour, hmin, hnew]
  obtain ⟨s', hb, _, hlast', _⟩ := (tickBody_fires s t hsr hres).1 hok
  have ht := tick_of_body_ok s t s' true hb
  refine ⟨by rw [ht], by rw [ht]; exact hlast', ?_⟩
  simp only [runTicks]
  rw [ht]
  rw [runTicks_no_fire t.now.date rest s' hlast' hsame]
  rfl

/-- Witness for C1: the restart fires on a matching tick and a second tick
in the same minute does not re-fire. -/
theorem restart_fires_once_witness :
    (runTicks ⟨"03:00", some "abc", none⟩
      [⟨⟨5, 3, 0⟩, .error (), true⟩, ⟨⟨5, 3, 0⟩, .ok "abc", true⟩]).2 = 1 :=
  (restart_fires_once_per_day ⟨"03:00", some "abc", none⟩ ⟨⟨5, 3, 0⟩, .error (), true⟩
    [⟨⟨5, 3, 0⟩, .ok "abc", true⟩] ⟨3, 0⟩ (by decide) rfl rfl (by decide)
    (Or.inl rfl) rfl
    (by intro t' ht'; rw [List.mem_singleton] at ht'; subst ht'; rfl)).2.2

theorem tickBody_ok_keeps_id (s : SchedState) (t : TickInput) (s' : SchedState)
    (inv : Bool) (hb : tickBody s t = (.ok s', inv)) :
    ∃ i, s'.container_id = some i := by
  by_cases hcid : truthy s.container_id = true
  · obtain ⟨i, hi⟩ := truthy_some _ hcid
    have hb₀ := (tickBody_of_truthy s t hcid).symm.trans hb
    cases hsr : should_restart s.restart_time s.last_restart_date t.now with
    | none =>
      rw [hsr] at hb₀
      exact Except.noConfusion (congrArg Prod.fst hb₀)
    | some b =>
      cases b with
      | true =>
        cases hro : t.restartOk with
        | true =>
          rw [hsr, hro] at hb₀
          have hs := Except.ok.inj (congrArg Prod.fst hb₀)
          exact ⟨i, by rw [← hs]; exact hi⟩
        | false =>
          rw [hsr, hro] at hb₀
          exact Except.noConfusion (congrArg Prod.fst hb₀)
      | false =>
        rw [hsr] at hb₀
        have hs := Except.ok.inj (congrArg Prod.fst hb₀)
        exact ⟨i, by rw [← hs]; exact hi⟩
  · have hcid' : truthy s.container_id = false := bool_false_of_not_true _ hcid
    cases hl : t.lookup with
    | error e =>
      have hb₀ := (tickBody_of_lookup_error s t e hcid' hl).symm.trans hb
      exact Except.noConfusion (congrArg Prod.fst hb₀)
    | ok i =>
      have hb₀ := (tickBody_of_lookup_ok s t i hcid' hl).symm.trans hb
      cases hsr : should_restart s.restart_time s.last_restart_date t.now with
      | none =>
        rw [hsr] at hb₀
        exact Except.noConfusion (congrArg Prod.fst hb₀)
      | some b =>
        cases b with
        | true =>
          cases hro : t.restartOk with
          | true =>
            rw [hsr, hro] at hb₀
            have hs := Except.ok.inj (congrArg Prod.fst hb₀)
            exact ⟨i, by rw [← hs]⟩
          | false =>
            rw [hsr, hro] at hb₀
            exact Except.noConfusion (congrArg Prod.fst hb₀)
        | false =>
          rw [hsr] at hb₀
          have hs := Except.ok.inj (congrArg Prod.fst hb₀)
          exact ⟨i, by rw [← hs]⟩

/-- C6: a tick on which any error was raised (lookup, decision or restart)
leaves the loop with the cached container identifier cleared to `None`; a
tick with no error leaves it set to some identifier. -/
theorem tick_error_clears_id (s : SchedState) (t : TickInput) :
    ((tick s t).2.2 = true → (tick s t).1.container_id = none) ∧
    ((tick s t).2.2 = false → ∃ i, (tick s t).1.container_id = some i) := by
  rcases hb : tickBody s t with ⟨r, inv⟩
  cases r with
  | error e =>
    have ht := tick_of_body_error s t inv (by rw [hb])
    constructor
    · intro _
      rw [ht]
    · intro hc
      rw [ht] at hc
      simp at hc
  | ok s' =>
    have ht := tick_of_body_ok s t s' inv hb
    constructor
    · intro hc
      rw [ht] at hc
      simp at hc
    · intro _
      rw [ht]
      exact tickBody_ok_keeps_id s t s' inv hb

/-- Witness for C6: an error-free tick (identifier cached, time not
matching) keeps the identifier set. -/
theorem tick_error_clears_id_witness :
    ∃ i, (tick ⟨"03:00", some "abc", none⟩
      ⟨⟨5, 4, 0⟩, .error (), true⟩).1.container_id = some i :=
  (tick_error_clears_id ⟨"03:00", some "abc", none⟩ ⟨⟨5, 4, 0⟩, .error (), true⟩).2 rfl

/-- C8: when the restart condition holds but the restart call raises, the
last-restart date is untouched (only the cached identifier is cleared), and
a later tick of the same day within the matching window — with the lookup
succeeding — invokes the restart again. -/
theorem restart_failure_keeps_date (s : SchedState) (t : TickInput)
    (hcond : should_restart s.restart_time s.last_restart_date t.now = some true)
    (hres : truthy s.container_id = true ∨ ∃ i, t.lookup = .ok i)
    (hfail : t.restartOk = false) :
    (tick s t).2.1 = true ∧
    (tick s t).1.last_restart_date = s.last_restart_date ∧
    (tick s t).1.container_id = none ∧
    (∀ t' : TickInput, t'.now = t.now → (∃ i, t'.lookup = .ok i) →
      (tick (tick s t).1 t').2.1 = true) := by
  have hb := (tickBody_fires s t hcond hres).2 hfail
  have ht := tick_of_body_error s t true hb
  refine ⟨by rw [ht], by rw [ht], by rw [ht], ?_⟩
  intro t' hnow ⟨i, hl'⟩
  rw [ht]
  have hcond' : should_restart ({ s with container_id := none } : SchedState).restart_time
      ({ s with container_id := none } : SchedState).last_restart_date t'.now = some true := by
    rw [hnow]
    exact hcond
  have hb' := tickBody_of_lookup_ok { s with container_id := none } t' i rfl hl'
  rw [hcond'] at hb'
  cases hro : t'.restartOk with
  | true =>
    rw [hro] at hb'
    rw [tick_of_body_ok _ t' _ true hb']
  | false =>
    rw [hro] at hb'
    rw [tick_of_body_error _ t' true hb']

/-- Witness for C8: a failing restart call on a matching tick leaves the
date guard unset and the next same-minute tick fires again. -/
theorem restart_failure_keeps_date_witness :
    (tick ⟨"03:00", some "abc", none⟩
      ⟨⟨5, 3, 0⟩, .error (), false⟩).1.last_restart_date = none ∧
    (tick ⟨"03:00", some "abc", none⟩ ⟨⟨5, 3, 0⟩, .error (), false⟩).2.1 = true :=
  ⟨(restart_failure_keeps_date ⟨"03:00", some "abc", none⟩ ⟨⟨5, 3, 0⟩, .error (), false⟩
      (by decide) (Or.inl rfl) rfl).2.1,
   (restart_failure_keeps_date ⟨"03:00", some "abc", none⟩ ⟨⟨5, 3, 0⟩, .error (), false⟩
      (by decide) (Or.inl rfl) rfl).1⟩

/-- C4: every exception a loop iteration's body raises is caught by the
`except` clause (the loop continues with the identifier cleared, never
exiting); the process exits 0 on `KeyboardInterrupt`, exits 1 exactly when
construction fails at startup, and otherwise runs forever. -/
theorem loop_survives_and_exit_codes :
    (∀ (s : SchedState) (t : TickInput) (inv : Bool),
      tickBody s t = (.error (), inv) →
      tick s t = ({ s with container_id := none }, inv, true)) ∧
    (∀ env : Env, mainResult env true = .exit 0) ∧
    (∀ env : Env, (∃ e, mkRestarter env = .error e) → mainResult env false = .exit 1) ∧
    (∀ env : Env, (∃ c, mkRestarter env = .ok c) → mainResult env false = .runsForever) := by
  refine ⟨tick_of_body_error, fun env => rfl, ?_, ?_⟩
  · rintro env ⟨e, he⟩
    simp [mainResult, he]
  · rintro env ⟨c, hc⟩
    simp [mainResult, hc]

/-- Witness for C4 at concrete states and environments. -/
theorem loop_survives_witness :
    tick ⟨"03:00", none, none⟩ ⟨⟨0, 0, 0⟩, .error (), true⟩
      = (⟨"03:00", none, none⟩, false, true) ∧
    mainResult ⟨none, none, none, none, none, none, none, none⟩ true = .exit 0 ∧
    mainResult ⟨none, none, none, none, none, none, none, none⟩ false = .exit 1 ∧
    mainResult ⟨some "http://p", some "k", none, none, none, some "web", none, none⟩
      false = .runsForever :=
  ⟨loop_survives_and_exit_codes.1 ⟨"03:00", none, none⟩ ⟨⟨0, 0, 0⟩, .error (), true⟩
      false rfl,
   loop_survives_and_exit_codes.2.1 ⟨none, none, none, none, none, none, none, none⟩,
   loop_survives_and_exit_codes.2.2.1 ⟨none, none, none, none, none, none, none, none⟩
      ⟨_, rfl⟩,
   loop_survives_and_exit_codes.2.2.2
      ⟨some "http://p", some "k", none, none, none, some "web", none, none⟩ ⟨_, rfl⟩⟩
